import Mathlib

/-!
Shallow embedding of the securefix-action client (`src/client.ts`).

The client action validates the desired pull-request intent, lists changed
files via git, filters them through an optional allow-list, writes a metadata
document and a manifest, uploads an artifact, and signals a server repository
by creating a label with an ephemeral GitHub App credential.

Side-effecting TypeScript is modelled as pure functions returning a pair of
an `Except String Unit` (the promise outcome; `Except.error` is a thrown
error) and a `List Event` trace recording every externally visible effect in
program order.  External collaborators (git stdout, artifact upload outcome,
label-creation outcome, the credential's expiry state at failure time, the
generated artifact name, `path.join`) are inputs of the model.
-/

namespace Securefix

/-- `project` sub-object of the zod `PullRequest` schema in `client.ts`. -/
structure Project where
  number : Int
  owner : String
  id : Option String
  deriving Repr, DecidableEq

/-- The `PullRequest` zod schema of `client.ts` (title, body, base, labels,
assignees, reviewers, team_reviewers, draft, comment, automerge_method,
project, milestone_number). -/
structure PullRequest where
  title : String
  body : String
  base : String
  labels : List String
  assignees : List String
  reviewers : List String
  team_reviewers : List String
  draft : Bool
  comment : String
  automerge_method : Option String
  project : Option Project
  milestone_number : Option Int
  deriving Repr, DecidableEq

/-- The `Inputs` record of `client.ts`.  The JavaScript `Set<string>` of the
allow-list is modelled as its insertion-ordered duplicate-free list. -/
structure Inputs where
  appId : String
  privateKey : String
  rootDir : String
  serverRepository : String
  repo : String
  branch : String
  failIfChanges : Bool
  files : List String
  pr : PullRequest
  commitMessage : String
  deriving Repr, DecidableEq

/-- JavaScript truthiness of an optional string: `undefined` and `""` are
falsy, every other string is truthy. -/
def optStrTruthy : Option String → Bool
  | none => false
  | some s => s != ""

/-- JavaScript truthiness of an optional number: `undefined` and `0` are
falsy.  (JavaScript also treats `NaN` as falsy; `NaN` has no counterpart in
this integer model.) -/
def optNumTruthy : Option Int → Bool
  | none => false
  | some n => n != 0

/-- `validateAutomergeMethod` of `client.ts`: throws unless the method is one
of `""`, `"merge"`, `"squash"`, `"rebase"`. -/
def validateAutomergeMethod (method : String) : Except String Unit :=
  if !(["", "merge", "squash", "rebase"].contains method) then
    Except.error
      "automerge_method must be one of \x22\x22, \x22merge\x22, \x22squash\x22, or \x22rebase\x22"
  else
    Except.ok ()

/-- `validatePR` of `client.ts`: accepts when the title is non-empty;
otherwise throws when any other field is truthy (in the source's test order:
base, body, labels, assignees, reviewers, team_reviewers, draft, comment,
milestone_number, project, automerge_method). -/
def validatePR (pr : PullRequest) : Except String Unit :=
  if pr.title != "" then
    Except.ok ()
  else if pr.base != "" || pr.body != "" || pr.labels.length != 0
      || pr.assignees.length != 0 || pr.reviewers.length != 0
      || pr.team_reviewers.length != 0 || pr.draft || pr.comment != ""
      || optNumTruthy pr.milestone_number || pr.project.isSome
      || optStrTruthy pr.automerge_method then
    Except.error "pull_request_title is required to create a pull request"
  else
    Except.ok ()

/-- Externally visible effects of one run, in program order.
`tokenCreate` is `githubAppToken.create` (credential acquisition),
`labelCreate` the `octokit.rest.issues.createLabel` attempt,
`revokeToken` is `githubAppToken.revoke`. -/
inductive Event where
  | setOutput (key value : String)
  | execGit (cwd : Option String)
  | notice (msg : String)
  | infoLog (msg : String)
  | writeFile (name content : String)
  | uploadArtifact (name : String) (paths : List String) (root : String)
  | rmFile (name : String)
  | tokenCreate (owner : String) (repositories : List String)
  | labelCreate (owner repo name description : String)
  | revokeToken (token : String)
  | setFailed (msg : String)
  deriving Repr, DecidableEq

/-- The `Files` record of `client.ts`: both fields optional. -/
structure Files where
  changed_files_from_root_dir : Option (List String) := none
  changed_files : Option (List String) := none
  deriving Repr, DecidableEq

instance {ε α : Type} [DecidableEq ε] [DecidableEq α] : DecidableEq (Except ε α) := fun a b =>
  match a, b with
  | Except.ok x, Except.ok y =>
    if h : x = y then isTrue (by rw [h]) else isFalse (fun hh => by cases hh; exact h rfl)
  | Except.error x, Except.error y =>
    if h : x = y then isTrue (by rw [h]) else isFalse (fun hh => by cases hh; exact h rfl)
  | Except.ok _, Except.error _ => isFalse (fun hh => by cases hh)
  | Except.error _, Except.ok _ => isFalse (fun hh => by cases hh)

/-- Outcomes of the external collaborators and ambient context consumed by one
run: the generated artifact name (`newName`), the stdout of
`git ls-files --modified --others --exclude-standard`, `GITHUB_WORKSPACE`,
`github.context` (owner/repo/runId), the artifact-upload outcome, the
label-creation outcome, the issued token value, and the value
`githubAppToken.hasExpired(token.expiresAt)` would return at failure time. -/
structure Env where
  artifactName : String
  gitStdout : String
  workspace : String
  ctxOwner : String
  ctxRepo : String
  ctxRunId : String
  uploadResult : Except String Unit
  labelResult : Except String Unit
  tokenValue : String
  tokenExpiredAtFailure : Bool
  deriving Repr, DecidableEq

/-- `new Set(xs)` over a JavaScript array: duplicates removed, first
occurrence (insertion) order kept; spread back to an array. -/
def jsSetList (l : List String) : List String :=
  l.foldl (fun acc f => if f ∈ acc then acc else acc ++ [f]) []

/-- JavaScript whitespace for `String.prototype.trim` (the characters that
can occur in git stdout). -/
def isJsSpace (c : Char) : Bool := c = ' ' || c = '\n' || c = '\t' || c = '\r'

/-- Drop leading whitespace from a character list. -/
def dropLeadingSpace : List Char → List Char
  | [] => []
  | c :: cs => if isJsSpace c then dropLeadingSpace cs else c :: cs

/-- JavaScript `String.prototype.trim`: strip whitespace from both ends. -/
def jsTrim (l : List Char) : List Char :=
  dropLeadingSpace ((dropLeadingSpace l.reverse).reverse)

/-- JavaScript `String.prototype.split("\n")` over a character list. -/
def splitNl : List Char → List (List Char)
  | [] => [[]]
  | c :: cs =>
    if c = '\n' then [] :: splitNl cs
    else
      match splitNl cs with
      | [] => [[c]]
      | h :: t => (c :: h) :: t

/-- `result.stdout.trim().split("\n").filter((file) => file.length > 0)` of
`client.ts` lines 134-139 (before the `Set` constructor dedups it). -/
def parseGitStdout (s : String) : List String :=
  ((splitNl (jsTrim s.data)).map (fun cs => String.mk cs)).filter (fun f => f != "")

/-- Content written by `createMetadataFile` (`client.ts` lines 293-305):
`JSON.stringify({context, inputs: {...}}, null, 2) + "\n"`.  The JSON
serializer is external; the model encodes the same echoed fields
(repository, branch, commit_message, root_dir, pull_request) plus the
triggering context into one string. -/
def metadataJson (env : Env) (inp : Inputs) : String :=
  "\x7bcontext: " ++ env.ctxOwner ++ "/" ++ env.ctxRepo ++ "/" ++ env.ctxRunId
    ++ ", repository: " ++ inp.repo ++ ", branch: " ++ inp.branch
    ++ ", commit_message: " ++ inp.commitMessage
    ++ ", root_dir: " ++ inp.rootDir
    ++ ", pull_request_title: " ++ inp.pr.title ++ "\x7d\n"

/-- `getFiles` of `client.ts` (lines 209-237), with its two effects (the
`core.notice` calls and the `createMetadataFile` write) recorded in a trace.
`join` stands for Node's `path.join`; `fixedFiles` and `inp.files` are the
insertion-ordered lists backing the JavaScript sets. -/
def getFiles (join : String → String → String) (fixedFiles : List String)
    (artifactName : String) (rootDir : String) (env : Env) (inp : Inputs) :
    Files × List Event :=
  if fixedFiles = [] then
    ({}, [Event.notice "No changes"])
  else
    let meta : List Event :=
      [Event.writeFile (artifactName ++ ".json") (metadataJson env inp)]
    if inp.files = [] then
      ({ changed_files_from_root_dir := some fixedFiles,
         changed_files := some (fixedFiles.map (fun file => join rootDir file)) },
       meta)
    else
      let filteredFiles := inp.files.filter (fun file => fixedFiles.contains file)
      if filteredFiles = [] then
        ({}, meta ++ [Event.notice "No changes"])
      else
        ({ changed_files_from_root_dir := some filteredFiles,
           changed_files := some (filteredFiles.map (fun file => join rootDir file)) },
         meta)

/-- `createLabel` of `client.ts` (lines 239-262).  `labelResult` is the
outcome of the `octokit.rest.issues.createLabel` call and
`expiredAtFailure` the value of `githubAppToken.hasExpired(token.expiresAt)`
evaluated in the catch block; on a live token the original error is
re-thrown after `githubAppToken.revoke(token.token)`. -/
def createLabel (tokenValue : String) (expiredAtFailure : Bool)
    (labelResult : Except String Unit) (owner : String)
    (repositories : List String) (labelName description : String) :
    Except String Unit × List Event :=
  let acquired : List Event := [Event.tokenCreate owner repositories]
  let attempt : List Event :=
    acquired ++ [Event.labelCreate owner (repositories.headD "") labelName description]
  match labelResult with
  | Except.ok _ => (Except.ok (), attempt)
  | Except.error e =>
    if expiredAtFailure then
      (Except.ok (), attempt ++ [Event.infoLog "GitHub App token has already expired"])
    else
      (Except.error e,
       attempt ++ [Event.infoLog "Revoking GitHub App token",
                   Event.revokeToken tokenValue])

/-- `client.ts` lines 177-201: the tail of `action` after the upload block.
Deletes `<artifactName>.json`, runs `createLabel` (propagating its error),
then reports the changes-detected outcome (`core.setFailed` when
`failIfChanges` is set or neither repo nor branch is configured, else a
notice).  `t` is the trace accumulated so far. -/
def actionFinish (inp : Inputs) (env : Env) (files : Files) (t : List Event) :
    Except String Unit × List Event :=
  let a := env.artifactName
  let t5 := t ++ [Event.rmFile (a ++ ".json")]
  let cl := createLabel env.tokenValue env.tokenExpiredAtFailure env.labelResult
      env.ctxOwner [inp.serverRepository] a
      (env.ctxOwner ++ "/" ++ env.ctxRepo ++ "/" ++ env.ctxRunId)
  match cl.1 with
  | Except.error e => (Except.error e, t5 ++ cl.2)
  | Except.ok _ =>
    let t6 := t5 ++ cl.2
    match files.changed_files with
    | some l =>
      if l.length > 0 then
        if inp.failIfChanges || (inp.repo == "" && inp.branch == "") then
          (Except.ok (),
           t6 ++ [Event.setFailed "Changes detected. A commit will be pushed",
                  Event.infoLog (String.intercalate "\n" l)])
        else
          (Except.ok (),
           t6 ++ [Event.notice "Changes detected. A commit will be pushed",
                  Event.infoLog (String.intercalate "\n" l)])
      else (Except.ok (), t6)
    | none => (Except.ok (), t6)

/-- `client.ts` lines 145-201: the part of `action` run when the git change
set is non-empty.  Calls `getFiles`, writes the metadata file again (line
147), sets the two change outputs and writes the manifest when present,
uploads the artifact and removes the manifest when changed files exist
(an upload error propagates, skipping every later statement), then runs
`actionFinish`. -/
def actionWithChanges (join : String → String → String) (inp : Inputs)
    (env : Env) (fixedFiles : List String) : Except String Unit × List Event :=
  let a := env.artifactName
  let fr := getFiles join fixedFiles a inp.rootDir env inp
  let files := fr.1
  let t1 := fr.2 ++ [Event.writeFile (a ++ ".json") (metadataJson env inp)]
  let t2 := t1 ++
    (match files.changed_files_from_root_dir with
     | some l =>
       [Event.setOutput "changed_files_from_root_dir" (String.intercalate "\n" l)]
     | none => [])
  let t3 := t2 ++
    (match files.changed_files with
     | some l =>
       [Event.setOutput "changed_files" (String.intercalate "\n" l)] ++
       (match files.changed_files_from_root_dir with
        | some l0 =>
          [Event.writeFile (a ++ "_files.txt") (String.intercalate "\n" l0 ++ "\n")]
        | none => [])
     | none => [])
  match files.changed_files with
  | some l =>
    if l.length > 0 then
      let t4 := t3 ++
        [Event.uploadArtifact a (l ++ [a ++ ".json", a ++ "_files.txt"]) env.workspace]
      match env.uploadResult with
      | Except.error e => (Except.error e, t4)
      | Except.ok _ =>
        actionFinish inp env files (t4 ++ [Event.rmFile (a ++ "_files.txt")])
    else actionFinish inp env files t3
  | none => actionFinish inp env files t3

/-- `action` of `client.ts` (lines 59-202): validates the automerge method
and the PR spec (a validation error aborts before any external call), emits
the `artifact_name` output, runs git to list changed files, short-circuits
with a notice when none, and otherwise continues with `actionWithChanges`. -/
def action (join : String → String → String) (inp : Inputs) (env : Env) :
    Except String Unit × List Event :=
  match validateAutomergeMethod (inp.pr.automerge_method.getD "") with
  | Except.error e => (Except.error e, [])
  | Except.ok _ =>
    match validatePR inp.pr with
    | Except.error e => (Except.error e, [])
    | Except.ok _ =>
      let a := env.artifactName
      let t0 := [Event.setOutput "artifact_name" a,
                 Event.execGit (if inp.rootDir == "" then none else some inp.rootDir)]
      let fixedFiles := jsSetList (parseGitStdout env.gitStdout)
      if fixedFiles = [] then
        (Except.ok (), t0 ++ [Event.notice "No changes"])
      else
        let r := actionWithChanges join inp env fixedFiles
        (r.1, t0 ++ r.2)

/-! ### Helper definitions for stating the properties -/

/-- The filter described by the spec (§4.3): all of `changed` when the
allow-list is empty, otherwise the elements of `allow` present in `changed`,
in `allow`'s order. -/
def specFilter (allow changed : List String) : List String :=
  if allow = [] then changed
  else allow.filter (fun file => changed.contains file)

/-- The root-relative change list carried by a `Files` value (empty when the
field is absent). -/
def rootList (f : Files) : List String :=
  f.changed_files_from_root_dir.getD []

/-- Truthiness of the non-title fields of a PR spec, in the claim's own
enumeration: base, body, labels, assignees, reviewers, team-reviewers, draft,
comment, milestone number, project, automerge method. -/
def specOtherTruthy (pr : PullRequest) : Bool :=
  pr.base != "" || pr.body != "" || pr.labels.length != 0
    || pr.assignees.length != 0 || pr.reviewers.length != 0
    || pr.team_reviewers.length != 0 || pr.draft || pr.comment != ""
    || optNumTruthy pr.milestone_number || pr.project.isSome
    || optStrTruthy pr.automerge_method

/-- The `githubAppToken.revoke` calls recorded in a trace. -/
def revokeEvents (t : List Event) : List Event :=
  t.filter fun e => match e with
    | Event.revokeToken _ => true
    | _ => false

/-- The `githubAppToken.create` (credential acquisition) calls in a trace. -/
def tokenEvents (t : List Event) : List Event :=
  t.filter fun e => match e with
    | Event.tokenCreate _ _ => true
    | _ => false

/-- The label-creation API calls in a trace. -/
def labelEvents (t : List Event) : List Event :=
  t.filter fun e => match e with
    | Event.labelCreate _ _ _ _ => true
    | _ => false

/-- The artifact-upload calls in a trace. -/
def uploadEvents (t : List Event) : List Event :=
  t.filter fun e => match e with
    | Event.uploadArtifact _ _ _ => true
    | _ => false

/-- The local file deletions in a trace. -/
def rmEvents (t : List Event) : List Event :=
  t.filter fun e => match e with
    | Event.rmFile _ => true
    | _ => false

/-- The `core.setFailed` calls in a trace. -/
def setFailedEvents (t : List Event) : List Event :=
  t.filter fun e => match e with
    | Event.setFailed _ => true
    | _ => false

/-- The file writes to a given path in a trace. -/
def writesTo (name : String) (t : List Event) : List Event :=
  t.filter fun e => match e with
    | Event.writeFile n _ => n == name
    | _ => false

/-! ### Branch equations for `getFiles` -/

lemma getFiles_eq_of_fixed_nil (join : String → String → String)
    (artifactName rootDir : String) (env : Env) (inp : Inputs) :
    getFiles join [] artifactName rootDir env inp =
      ({}, [Event.notice "No changes"]) := by
  unfold getFiles; simp

lemma getFiles_eq_of_allow_nil (join : String → String → String)
    (fixedFiles : List String) (artifactName rootDir : String) (env : Env)
    (inp : Inputs) (h1 : fixedFiles ≠ []) (h2 : inp.files = []) :
    getFiles join fixedFiles artifactName rootDir env inp =
      ({ changed_files_from_root_dir := some fixedFiles,
         changed_files := some (fixedFiles.map (fun file => join rootDir file)) },
       [Event.writeFile (artifactName ++ ".json") (metadataJson env inp)]) := by
  unfold getFiles; simp [h1, h2]

lemma getFiles_eq_of_filter_nil (join : String → String → String)
    (fixedFiles : List String) (artifactName rootDir : String) (env : Env)
    (inp : Inputs) (h1 : fixedFiles ≠ []) (h2 : inp.files ≠ [])
    (h3 : inp.files.filter (fun file => fixedFiles.contains file) = []) :
    getFiles join fixedFiles artifactName rootDir env inp =
      ({}, [Event.writeFile (artifactName ++ ".json") (metadataJson env inp),
            Event.notice "No changes"]) := by
  unfold getFiles
  simp only [if_neg h1, if_neg h2, if_pos h3]
  rfl

lemma getFiles_eq_of_filter_nonnil (join : String → String → String)
    (fixedFiles : List String) (artifactName rootDir : String) (env : Env)
    (inp : Inputs) (h1 : fixedFiles ≠ []) (h2 : inp.files ≠ [])
    (h3 : inp.files.filter (fun file => fixedFiles.contains file) ≠ []) :
    getFiles join fixedFiles artifactName rootDir env inp =
      ({ changed_files_from_root_dir :=
           some (inp.files.filter (fun file => fixedFiles.contains file)),
         changed_files :=
           some ((inp.files.filter (fun file => fixedFiles.contains file)).map
             (fun file => join rootDir file)) },
       [Event.writeFile (artifactName ++ ".json") (metadataJson env inp)]) := by
  unfold getFiles
  simp only [if_neg h1, if_neg h2, if_neg h3]

/-! ### C7: automerge-method validation -/

/-- C7: `validateAutomergeMethod` succeeds exactly on `""`, `"merge"`,
`"squash"`, `"rebase"`, and on anything else fails with the descriptive
error naming the four accepted values; being a pure `Except` computation it
has no side effects. -/
theorem validateAutomergeMethod_spec (s : String) :
    validateAutomergeMethod s =
      (if s = "" ∨ s = "merge" ∨ s = "squash" ∨ s = "rebase" then Except.ok ()
       else Except.error
         "automerge_method must be one of \x22\x22, \x22merge\x22, \x22squash\x22, or \x22rebase\x22") := by
  unfold validateAutomergeMethod
  by_cases h1 : s = "" <;> by_cases h2 : s = "merge" <;> by_cases h3 : s = "squash"
    <;> by_cases h4 : s = "rebase" <;>
    simp [List.contains, h1, h2, h3, h4]

/-! ### C5: PR-spec validation -/

/-- A titleless PR spec whose base branch is set (spec Scenario D). -/
def prTitlelessBase : PullRequest :=
  { title := "", body := "", base := "main", labels := [], assignees := [],
    reviewers := [], team_reviewers := [], draft := false, comment := "",
    automerge_method := some "", project := none, milestone_number := some 0 }

/-- C5 counterexample: on a titleless spec with a non-empty base branch,
`validatePR` does fail, but its error is
"pull_request_title is required to create a pull request", not the message
"title is required to create a pull request" stated by the claim. -/
theorem validatePR_message_counterexample :
    (validatePR prTitlelessBase).isOk = false ∧
      validatePR prTitlelessBase ≠
        Except.error "title is required to create a pull request" := by
  constructor
  · rfl
  · intro h
    simp [validatePR, prTitlelessBase, optNumTruthy, optStrTruthy] at h

/-- C5 amended: `validatePR` accepts unconditionally when the title is
non-empty; with an empty title it fails with the error
"pull_request_title is required to create a pull request" when any other
field (base, body, labels, assignees, reviewers, team-reviewers, draft,
comment, milestone number, project, automerge method) is non-empty/truthy,
and accepts when every other field is empty/falsy. -/
theorem validatePR_amended (pr : PullRequest) :
    validatePR pr =
      (if pr.title = "" ∧ specOtherTruthy pr then
        Except.error "pull_request_title is required to create a pull request"
       else Except.ok ()) := by
  unfold validatePR specOtherTruthy
  by_cases ht : pr.title = "" <;> simp [ht]

/-! ### C6: the change-set filter -/

/-- C6: the root-relative file list produced by `getFiles` is exactly the
spec's filter: with a non-empty allow-list, the allow-list elements present
in the changed set in the allow-list's order (absent entries silently
dropped, never an error); with an empty allow-list, the whole changed set. -/
theorem getFiles_filter_spec (join : String → String → String)
    (fixedFiles : List String) (artifactName rootDir : String) (env : Env)
    (inp : Inputs) :
    rootList (getFiles join fixedFiles artifactName rootDir env inp).1 =
      specFilter inp.files fixedFiles := by
  by_cases hfix : fixedFiles = []
  · subst hfix
    rw [getFiles_eq_of_fixed_nil]
    unfold specFilter rootList
    by_cases hall : inp.files = []
    · simp [hall]
    · simp [hall, List.contains]
  · by_cases hall : inp.files = []
    · rw [getFiles_eq_of_allow_nil join fixedFiles artifactName rootDir env inp hfix hall]
      unfold specFilter rootList
      simp [hall]
    · by_cases hflt : inp.files.filter (fun file => fixedFiles.contains file) = []
      · rw [getFiles_eq_of_filter_nil join fixedFiles artifactName rootDir env inp hfix hall hflt]
        unfold specFilter rootList
        simp [hall]
        simpa using hflt
      · rw [getFiles_eq_of_filter_nonnil join fixedFiles artifactName rootDir env inp hfix hall hflt]
        unfold specFilter rootList
        simp [hall]

/-! ### C10: shape invariant of the `Files` value -/

/-- C10: `getFiles` returns either an empty record (neither field present) or
a record with both fields present and non-empty, where `changed_files` is the
pointwise `path.join` of `rootDir` with `changed_files_from_root_dir` (hence
the two lists have equal length). -/
theorem getFiles_shape_invariant (join : String → String → String)
    (fixedFiles : List String) (artifactName rootDir : String) (env : Env)
    (inp : Inputs) :
    (((getFiles join fixedFiles artifactName rootDir env inp).1.changed_files_from_root_dir
        = none ∧
      (getFiles join fixedFiles artifactName rootDir env inp).1.changed_files = none)) ∨
    (∃ l, (getFiles join fixedFiles artifactName rootDir env inp).1.changed_files_from_root_dir
        = some l ∧
      (getFiles join fixedFiles artifactName rootDir env inp).1.changed_files
        = some (l.map (fun file => join rootDir file)) ∧
      l ≠ [] ∧ (l.map (fun file => join rootDir file)).length = l.length) := by
  by_cases hfix : fixedFiles = []
  · left
    subst hfix
    rw [getFiles_eq_of_fixed_nil]
    exact ⟨rfl, rfl⟩
  · by_cases hall : inp.files = []
    · right
      refine ⟨fixedFiles, ?_⟩
      rw [getFiles_eq_of_allow_nil join fixedFiles artifactName rootDir env inp hfix hall]
      exact ⟨rfl, rfl, hfix, by simp⟩
    · by_cases hflt : inp.files.filter (fun file => fixedFiles.contains file) = []
      · left
        rw [getFiles_eq_of_filter_nil join fixedFiles artifactName rootDir env inp hfix hall hflt]
        exact ⟨rfl, rfl⟩
      · right
        refine ⟨inp.files.filter (fun file => fixedFiles.contains file), ?_⟩
        rw [getFiles_eq_of_filter_nonnil join fixedFiles artifactName rootDir env inp hfix hall hflt]
        exact ⟨rfl, rfl, hflt, by simp⟩

/-! ### C2: revoke-on-failure semantics of `createLabel` -/

/-- C2: when label creation fails on an already-expired credential,
`createLabel` returns quietly (no revoke call, no re-raise); when it fails on
a live credential, `githubAppToken.revoke` is called exactly once on that
credential's token and the original error is re-raised unchanged. -/
theorem createLabel_failure_branches (tokenValue owner labelName description e : String)
    (repositories : List String) :
    (createLabel tokenValue true (Except.error e) owner repositories
        labelName description).1 = Except.ok () ∧
    revokeEvents (createLabel tokenValue true (Except.error e) owner repositories
        labelName description).2 = [] ∧
    (createLabel tokenValue false (Except.error e) owner repositories
        labelName description).1 = Except.error e ∧
    revokeEvents (createLabel tokenValue false (Except.error e) owner repositories
        labelName description).2 = [Event.revokeToken tokenValue] := by
  refine ⟨rfl, ?_, rfl, ?_⟩ <;> simp [createLabel, revokeEvents]

/-! ### Concrete fixtures for witnesses and counterexamples -/

/-- A `path.join` model for concrete runs: drops an empty root. -/
def joinStd (root file : String) : String :=
  if root = "" then file else root ++ "/" ++ file

/-- A fully empty PR spec, as `action` builds it when no PR input is set
(empty strings and lists, `automerge_method = ""`, `milestone_number = 0`). -/
def emptyPR : PullRequest :=
  { title := "", body := "", base := "", labels := [], assignees := [],
    reviewers := [], team_reviewers := [], draft := false, comment := "",
    automerge_method := some "", project := none, milestone_number := some 0 }

/-- Baseline inputs: no allow-list, no commit target, no PR request. -/
def inputsBase : Inputs :=
  { appId := "123", privateKey := "pem", rootDir := "",
    serverRepository := "server-repo", repo := "", branch := "",
    failIfChanges := false, files := [], pr := emptyPR, commitMessage := "" }

/-- Baseline environment: git reports one changed file `a.txt`, upload and
label creation succeed. -/
def envBase : Env :=
  { artifactName := "securefix-20260101000000-abc", gitStdout := "a.txt",
    workspace := "/w", ctxOwner := "org", ctxRepo := "client-repo",
    ctxRunId := "42", uploadResult := Except.ok (),
    labelResult := Except.ok (), tokenValue := "tok",
    tokenExpiredAtFailure := false }

/-! ### Equations for runs with a non-empty post-filter change set -/

/-- The `Files` value produced for a non-empty post-filter list `l0`. -/
def filesOf (join : String → String → String) (rootDir : String)
    (l0 : List String) : Files :=
  { changed_files_from_root_dir := some l0,
    changed_files := some (l0.map (fun file => join rootDir file)) }

/-- The trace of `actionWithChanges` up to and including the upload attempt,
for a non-empty post-filter list `l0`: metadata written twice (once inside
`getFiles`, once at line 147), the two outputs, the manifest write, and the
upload call. -/
def preUploadTrace (join : String → String → String) (inp : Inputs)
    (env : Env) (l0 : List String) : List Event :=
  [Event.writeFile (env.artifactName ++ ".json") (metadataJson env inp),
   Event.writeFile (env.artifactName ++ ".json") (metadataJson env inp),
   Event.setOutput "changed_files_from_root_dir" (String.intercalate "\n" l0),
   Event.setOutput "changed_files"
     (String.intercalate "\n" (l0.map (fun file => join inp.rootDir file))),
   Event.writeFile (env.artifactName ++ "_files.txt")
     (String.intercalate "\n" l0 ++ "\n"),
   Event.uploadArtifact env.artifactName
     ((l0.map (fun file => join inp.rootDir file)) ++
       [env.artifactName ++ ".json", env.artifactName ++ "_files.txt"])
     env.workspace]

lemma actionWithChanges_eq_reach_upload (join : String → String → String)
    (inp : Inputs) (env : Env) (fixedFiles : List String)
    (hfix : fixedFiles ≠ []) (hflt : specFilter inp.files fixedFiles ≠ []) :
    actionWithChanges join inp env fixedFiles =
      (match env.uploadResult with
       | Except.error e =>
         (Except.error e,
          preUploadTrace join inp env (specFilter inp.files fixedFiles))
       | Except.ok _ =>
         actionFinish inp env (filesOf join inp.rootDir (specFilter inp.files fixedFiles))
           (preUploadTrace join inp env (specFilter inp.files fixedFiles) ++
             [Event.rmFile (env.artifactName ++ "_files.txt")])) := by
  by_cases hall : inp.files = []
  · have hs : specFilter inp.files fixedFiles = fixedFiles := by
      simp [specFilter, hall]
    rw [hs]
    simp only [actionWithChanges]
    rw [getFiles_eq_of_allow_nil join fixedFiles env.artifactName inp.rootDir env inp hfix hall]
    have hpos : 0 < (fixedFiles.map (fun file => join inp.rootDir file)).length := by
      simpa [List.length_pos] using hfix
    simp only [if_pos hpos]
    cases env.uploadResult <;> rfl
  · have hflt2 : inp.files.filter (fun file => fixedFiles.contains file) ≠ [] := by
      intro h
      apply hflt
      simp [specFilter, hall]
      simpa using h
    have hs : specFilter inp.files fixedFiles =
        inp.files.filter (fun file => fixedFiles.contains file) := by
      simp [specFilter, hall]
    rw [hs]
    simp only [actionWithChanges]
    rw [getFiles_eq_of_filter_nonnil join fixedFiles env.artifactName inp.rootDir env inp
      hfix hall hflt2]
    have hpos : 0 < ((inp.files.filter (fun file => fixedFiles.contains file)).map
        (fun file => join inp.rootDir file)).length := by
      simpa [List.length_pos] using hflt2
    simp only [if_pos hpos]
    cases env.uploadResult <;> rfl

lemma action_eq_with_changes (join : String → String → String) (inp : Inputs)
    (env : Env)
    (hv1 : validateAutomergeMethod (inp.pr.automerge_method.getD "") = Except.ok ())
    (hv2 : validatePR inp.pr = Except.ok ())
    (hfix : jsSetList (parseGitStdout env.gitStdout) ≠ []) :
    action join inp env =
      ((actionWithChanges join inp env (jsSetList (parseGitStdout env.gitStdout))).1,
       [Event.setOutput "artifact_name" env.artifactName,
        Event.execGit (if inp.rootDir == "" then none else some inp.rootDir)] ++
         (actionWithChanges join inp env (jsSetList (parseGitStdout env.gitStdout))).2) := by
  simp only [action, hv1, hv2, hfix, if_false, ite_false]

lemma actionFinish_mem_of_mem (inp : Inputs) (env : Env) (files : Files)
    (t : List Event) (x : Event) (hx : x ∈ t) :
    x ∈ (actionFinish inp env files t).2 := by
  unfold actionFinish
  cases h1 : (createLabel env.tokenValue env.tokenExpiredAtFailure env.labelResult
      env.ctxOwner [inp.serverRepository] env.artifactName
      (env.ctxOwner ++ "/" ++ env.ctxRepo ++ "/" ++ env.ctxRunId)).1 with
  | error e => simp [h1, hx]
  | ok u =>
    cases u
    cases files.changed_files with
    | none => simp [h1, hx]
    | some l =>
      by_cases h3 : l.length > 0
      · by_cases h4 : (inp.failIfChanges || (inp.repo == "" && inp.branch == "")) = true
        · simp [h1, h3, h4, hx]
        · simp [h1, h3, h4, hx]
      · simp [h1, h3, hx]

lemma actionFinish_rm_json_mem (inp : Inputs) (env : Env) (files : Files)
    (t : List Event) :
    Event.rmFile (env.artifactName ++ ".json") ∈ (actionFinish inp env files t).2 := by
  unfold actionFinish
  cases h1 : (createLabel env.tokenValue env.tokenExpiredAtFailure env.labelResult
      env.ctxOwner [inp.serverRepository] env.artifactName
      (env.ctxOwner ++ "/" ++ env.ctxRepo ++ "/" ++ env.ctxRunId)).1 with
  | error e => simp [h1]
  | ok u =>
    cases u
    cases files.changed_files with
    | none => simp [h1]
    | some l =>
      by_cases h3 : l.length > 0
      · by_cases h4 : (inp.failIfChanges || (inp.repo == "" && inp.branch == "")) = true
        · simp [h1, h3, h4]
        · simp [h1, h3, h4]
      · simp [h1, h3]

lemma actionFinish_writesTo (name : String) (inp : Inputs) (env : Env)
    (files : Files) (t : List Event) :
    writesTo name (actionFinish inp env files t).2 = writesTo name t := by
  unfold actionFinish createLabel
  cases env.labelResult with
  | error e =>
    by_cases h2 : env.tokenExpiredAtFailure
    · cases files.changed_files with
      | none => simp [h2, writesTo]
      | some l =>
        by_cases h3 : l.length > 0
        · by_cases h4 : (inp.failIfChanges || (inp.repo == "" && inp.branch == "")) = true
          · simp [h2, h3, h4, writesTo]
          · simp [h2, h3, h4, writesTo]
        · simp [h2, h3, writesTo]
    · simp [h2, writesTo]
  | ok u =>
    cases u
    cases files.changed_files with
    | none => simp [writesTo]
    | some l =>
      by_cases h3 : l.length > 0
      · by_cases h4 : (inp.failIfChanges || (inp.repo == "" && inp.branch == "")) = true
        · simp [h3, h4, writesTo]
        · simp [h3, h4, writesTo]
      · simp [h3, writesTo]

/-! ### C8: validation precedes every external call -/

/-- C8: when the request is invalid (automerge method rejected or titleless
PR spec inconsistent), `action` fails during validation with an empty effect
trace — in particular no git process execution, no upload, no credential
acquisition ever happens. -/
theorem action_validation_before_external (join : String → String → String)
    (inp : Inputs) (env : Env)
    (h : validateAutomergeMethod (inp.pr.automerge_method.getD "") ≠ Except.ok ()
        ∨ validatePR inp.pr ≠ Except.ok ()) :
    (action join inp env).2 = [] ∧ (action join inp env).1.isOk = false := by
  unfold action
  cases hv : validateAutomergeMethod (inp.pr.automerge_method.getD "") with
  | error e => exact ⟨rfl, rfl⟩
  | ok u =>
    cases u
    cases hp : validatePR inp.pr with
    | error e => exact ⟨rfl, rfl⟩
    | ok u =>
      cases u
      rcases h with h | h
      · exact absurd hv h
      · exact absurd hp h

/-- C8 witness: with `pr.title = ""` and `pr.base = "main"` (spec Scenario
D), the run aborts in validation: error outcome, empty trace, so the
change-listing git execution never occurs. -/
theorem action_validation_before_external_witness :
    (action joinStd { inputsBase with pr := prTitlelessBase } envBase).2 = [] ∧
      (action joinStd { inputsBase with pr := prTitlelessBase } envBase).1.isOk = false :=
  action_validation_before_external joinStd
    { inputsBase with pr := prTitlelessBase } envBase (Or.inr (by decide))

/-! ### C1: the empty-post-filter run is not a no-op -/

/-- C1 failing input: git reports the change `a.txt` while the allow-list is
`{"b.txt"}`, so the post-filter change set is empty.  The run still acquires
the GitHub App credential and creates the signal label (while uploading no
artifact), contradicting the claimed zero credential/label side effects. -/
theorem action_empty_filter_still_signals :
    specFilter ["b.txt"] (jsSetList (parseGitStdout "a.txt")) = [] ∧
    (action joinStd { inputsBase with files := ["b.txt"] } envBase).1 = Except.ok () ∧
    tokenEvents (action joinStd { inputsBase with files := ["b.txt"] } envBase).2 =
      [Event.tokenCreate "org" ["server-repo"]] ∧
    labelEvents (action joinStd { inputsBase with files := ["b.txt"] } envBase).2 =
      [Event.labelCreate "org" "server-repo" "securefix-20260101000000-abc"
        "org/client-repo/42"] ∧
    uploadEvents (action joinStd { inputsBase with files := ["b.txt"] } envBase).2 = [] := by
  refine ⟨rfl, rfl, rfl, rfl, rfl⟩

/-! ### C3: cleanup after the upload step -/

/-- C3 counterexample: a run that reaches the upload step whose upload fails
(`"upload failed"`).  The error propagates, and neither
`<artifactName>.json` nor `<artifactName>_files.txt` is deleted — the
cleanup IS skipped on upload failure. -/
theorem action_upload_failure_skips_cleanup :
    uploadEvents (action joinStd inputsBase
        { envBase with uploadResult := Except.error "upload failed" }).2 =
      [Event.uploadArtifact "securefix-20260101000000-abc"
        ["a.txt", "securefix-20260101000000-abc.json",
         "securefix-20260101000000-abc_files.txt"] "/w"] ∧
    (action joinStd inputsBase
        { envBase with uploadResult := Except.error "upload failed" }).1 =
      Except.error "upload failed" ∧
    rmEvents (action joinStd inputsBase
        { envBase with uploadResult := Except.error "upload failed" }).2 = [] := by
  refine ⟨rfl, rfl, rfl⟩

/-- C3 amended: for every run that reaches the upload step, on upload success
both temp files (`<artifactName>_files.txt` then `<artifactName>.json`) are
deleted; on upload failure the error propagates unchanged and no local file
deletion happens at all (cleanup is skipped). -/
theorem action_cleanup_after_upload (join : String → String → String)
    (inp : Inputs) (env : Env)
    (hv1 : validateAutomergeMethod (inp.pr.automerge_method.getD "") = Except.ok ())
    (hv2 : validatePR inp.pr = Except.ok ())
    (hfix : jsSetList (parseGitStdout env.gitStdout) ≠ [])
    (hflt : specFilter inp.files (jsSetList (parseGitStdout env.gitStdout)) ≠ []) :
    (env.uploadResult = Except.ok () →
      Event.rmFile (env.artifactName ++ "_files.txt") ∈ (action join inp env).2 ∧
      Event.rmFile (env.artifactName ++ ".json") ∈ (action join inp env).2) ∧
    (env.uploadResult.isOk = false →
      (action join inp env).1 = env.uploadResult ∧
      rmEvents (action join inp env).2 = []) := by
  rw [action_eq_with_changes join inp env hv1 hv2 hfix]
  rw [actionWithChanges_eq_reach_upload join inp env _ hfix hflt]
  constructor
  · intro hup
    rw [hup]
    constructor
    · refine List.mem_append_right _ ?_
      exact actionFinish_mem_of_mem inp env _ _ _ (by simp)
    · refine List.mem_append_right _ ?_
      exact actionFinish_rm_json_mem inp env _ _
  · intro hup
    cases h : env.uploadResult with
    | ok u => rw [h] at hup; simp [Except.isOk, Except.toBool] at hup
    | error e =>
      refine ⟨rfl, ?_⟩
      simp [rmEvents, preUploadTrace]

/-- C3 amended witness: the baseline concrete run (one changed file, upload
succeeds) deletes both temp files. -/
theorem action_cleanup_after_upload_witness :
    (envBase.uploadResult = Except.ok () →
      Event.rmFile (envBase.artifactName ++ "_files.txt") ∈
        (action joinStd inputsBase envBase).2 ∧
      Event.rmFile (envBase.artifactName ++ ".json") ∈
        (action joinStd inputsBase envBase).2) ∧
    (envBase.uploadResult.isOk = false →
      (action joinStd inputsBase envBase).1 = envBase.uploadResult ∧
      rmEvents (action joinStd inputsBase envBase).2 = []) :=
  action_cleanup_after_upload joinStd inputsBase envBase (by decide) (by decide)
    (by decide) (by decide)

/-! ### C4: changes-detected outcome -/

/-- C4: in a run with a non-empty post-filter change set whose upload and
label signal succeed, the run is marked failed (one `core.setFailed` call)
exactly when `failIfChanges` is set or neither repo nor branch is
configured; otherwise it emits the changes-detected notice, is not marked
failed, and resolves successfully. -/
theorem action_changes_outcome (join : String → String → String)
    (inp : Inputs) (env : Env)
    (hv1 : validateAutomergeMethod (inp.pr.automerge_method.getD "") = Except.ok ())
    (hv2 : validatePR inp.pr = Except.ok ())
    (hfix : jsSetList (parseGitStdout env.gitStdout) ≠ [])
    (hflt : specFilter inp.files (jsSetList (parseGitStdout env.gitStdout)) ≠ [])
    (hup : env.uploadResult = Except.ok ())
    (hlab : env.labelResult = Except.ok ()) :
    ((inp.failIfChanges || (inp.repo == "" && inp.branch == "")) = true →
      setFailedEvents (action join inp env).2 =
        [Event.setFailed "Changes detected. A commit will be pushed"] ∧
      (action join inp env).1 = Except.ok ()) ∧
    ((inp.failIfChanges || (inp.repo == "" && inp.branch == "")) = false →
      setFailedEvents (action join inp env).2 = [] ∧
      Event.notice "Changes detected. A commit will be pushed" ∈ (action join inp env).2 ∧
      (action join inp env).1 = Except.ok ()) := by
  rw [action_eq_with_changes join inp env hv1 hv2 hfix]
  rw [actionWithChanges_eq_reach_upload join inp env _ hfix hflt]
  rw [hup]
  have hpos : 0 < ((specFilter inp.files (jsSetList (parseGitStdout env.gitStdout))).map
      (fun file => join inp.rootDir file)).length := by
    simpa [List.length_pos] using hflt
  unfold actionFinish createLabel
  rw [hlab]
  simp only [filesOf]
  constructor
  · intro hcond
    rw [if_pos hpos]
    simp [hcond, setFailedEvents, preUploadTrace]
  · intro hcond
    rw [if_pos hpos]
    simp [hcond, setFailedEvents, preUploadTrace]

/-- C4 witness (spec Scenario C): repo and branch both empty,
`failIfChanges` false, one changed file, upload and signal succeed — the run
is marked failed because no commit target is configured. -/
theorem action_changes_outcome_witness :
    ((inputsBase.failIfChanges || (inputsBase.repo == "" && inputsBase.branch == "")) = true →
      setFailedEvents (action joinStd inputsBase envBase).2 =
        [Event.setFailed "Changes detected. A commit will be pushed"] ∧
      (action joinStd inputsBase envBase).1 = Except.ok ()) ∧
    ((inputsBase.failIfChanges || (inputsBase.repo == "" && inputsBase.branch == "")) = false →
      setFailedEvents (action joinStd inputsBase envBase).2 = [] ∧
      Event.notice "Changes detected. A commit will be pushed" ∈
        (action joinStd inputsBase envBase).2 ∧
      (action joinStd inputsBase envBase).1 = Except.ok ()) :=
  action_changes_outcome joinStd inputsBase envBase (by decide) (by decide)
    (by decide) (by decide) rfl rfl

/-! ### C9: manifest content -/

lemma json_name_ne_manifest_name (a : String) :
    (a ++ ".json") ≠ (a ++ "_files.txt") := by
  intro h
  have h2 := congrArg String.data h
  rw [String.data_append, String.data_append] at h2
  have h3 := List.append_cancel_left h2
  exact absurd (congrArg List.length h3) (by decide)

/-- C9: whenever the post-filter change set is non-empty, the run performs
exactly one write to `<artifactName>_files.txt`, whose content is the
filtered root-relative paths joined by newlines with one terminating
newline. -/
theorem action_manifest_content (join : String → String → String)
    (inp : Inputs) (env : Env)
    (hv1 : validateAutomergeMethod (inp.pr.automerge_method.getD "") = Except.ok ())
    (hv2 : validatePR inp.pr = Except.ok ())
    (hfix : jsSetList (parseGitStdout env.gitStdout) ≠ [])
    (hflt : specFilter inp.files (jsSetList (parseGitStdout env.gitStdout)) ≠ []) :
    writesTo (env.artifactName ++ "_files.txt") (action join inp env).2 =
      [Event.writeFile (env.artifactName ++ "_files.txt")
        (String.intercalate "\n"
          (specFilter inp.files (jsSetList (parseGitStdout env.gitStdout))) ++ "\n")] := by
  rw [action_eq_with_changes join inp env hv1 hv2 hfix]
  rw [actionWithChanges_eq_reach_upload join inp env _ hfix hflt]
  have hne : ((env.artifactName ++ ".json") == (env.artifactName ++ "_files.txt")) = false := by
    rw [beq_eq_false_iff_ne]
    exact json_name_ne_manifest_name env.artifactName
  cases h : env.uploadResult with
  | error e =>
    simp [writesTo, preUploadTrace, hne]
  | ok u =>
    cases u
    simp only []
    rw [writesTo, List.filter_append]
    have h1 : writesTo (env.artifactName ++ "_files.txt")
        (actionFinish inp env
          (filesOf join inp.rootDir (specFilter inp.files (jsSetList (parseGitStdout env.gitStdout))))
          (preUploadTrace join inp env (specFilter inp.files (jsSetList (parseGitStdout env.gitStdout))) ++
            [Event.rmFile (env.artifactName ++ "_files.txt")])).2 =
        writesTo (env.artifactName ++ "_files.txt")
          (preUploadTrace join inp env (specFilter inp.files (jsSetList (parseGitStdout env.gitStdout))) ++
            [Event.rmFile (env.artifactName ++ "_files.txt")]) :=
      actionFinish_writesTo _ inp env _ _
    rw [writesTo] at h1
    rw [h1]
    simp [writesTo, preUploadTrace, hne]

/-- C9 witness: in the baseline concrete run the manifest write is exactly
one event with content `"a.txt\n"`. -/
theorem action_manifest_content_witness :
    writesTo (envBase.artifactName ++ "_files.txt")
        (action joinStd inputsBase envBase).2 =
      [Event.writeFile (envBase.artifactName ++ "_files.txt")
        (String.intercalate "\n"
          (specFilter inputsBase.files (jsSetList (parseGitStdout envBase.gitStdout))) ++ "\n")] :=
  action_manifest_content joinStd inputsBase envBase (by decide) (by decide)
    (by decide) (by decide)

end Securefix
